import Mathlib

/-
Verification of the Sunny-Flowers Discord music bot (src/discord.rs).

The development shallowly embeds the bot logic: identifiers are Nat, the
voice-state map of a guild is the list of its values, the external
session manager (songbird) is an association list from guild id to the
queue state of the active call, and every observable side effect of a
handler (chat message, console log line, collaborator call) is recorded
in an ordered effect trace. Fallible collaborator calls are passed in as
Except-valued parameters, mirroring the Result values the code matches on.
-/

namespace Sunny

abbrev UserId := Nat
abbrev ChannelId := Nat
abbrev GuildId := Nat

/-- One entry of the voice-state map of a guild. The code reads
the fields user_id and channel_id; the isBot field records whether the
account owning this voice state is a bot account (information that lives
on the member roster). The function check_alone never reads isBot. -/
structure VoiceState where
  user_id : UserId
  channel_id : Option ChannelId
  isBot : Bool
  deriving DecidableEq, Repr

/-- A guild as the watchdog sees it: its id and the values of its
voice_states map. -/
structure Guild where
  id : GuildId
  voice_states : List VoiceState
  deriving DecidableEq, Repr

/-- Every observable side effect a handler can perform, in order:
chat sends (say to a channel, reply to the invoking message), console
logs (log for println, elog for eprintln), and calls into the external
session manager and source resolver. -/
inductive Effect where
  | say (text : String)
  | reply (text : String)
  | log (text : String)
  | elog (text : String)
  | managerGet (guild : GuildId)
  | joinVoice (guild : GuildId) (channel : ChannelId)
  | removeCall (guild : GuildId)
  | registerTrackEnd
  | registerTimeout
  | deafenCall
  | resolveSource (url : String)
  | enqueueSource (url : String)
  deriving DecidableEq, Repr

/-- src/discord.rs lines 108-113. The bot is alone in channel_id when no
voice state of the guild places a user other than the bot in that channel;
a voice state with no channel never counts. -/
def check_alone (guild : Guild) (channel_id : ChannelId) (bot_id : UserId) : Bool :=
  !(guild.voice_states.any fun vs =>
    match vs.channel_id with
    | some c_id => channel_id == c_id && vs.user_id != bot_id
    | none => false)

/-- Result of one watchdog tick: the new value of the timer, whether a
disconnect (manager.remove) was requested on this tick, and the effects
performed. -/
structure TickOut where
  timer : Nat
  disconnect : Bool
  effects : List Effect
  deriving DecidableEq, Repr

/-- src/discord.rs lines 76-106, TimeoutHandler::act for one tick. The
AtomicUsize timer is passed in and returned explicitly; fetch_add(1)
yields the previous value prev and stores prev + 1, and the disconnect
branch runs when prev >= 5. removeResult is the outcome of the external
manager.remove call; its failure is logged with eprintln and the farewell
message is sent either way. -/
def timeout_act (guild : Guild) (channel_id : ChannelId) (bot_id : UserId)
    (timer : Nat) (removeResult : Except String Unit) : TickOut :=
  if check_alone guild channel_id bot_id then
    let prev := timer
    if 5 ≤ prev then
      { timer := prev + 1
        disconnect := true
        effects :=
          [Effect.removeCall guild.id] ++
            (match removeResult with
             | Except.error e => [Effect.elog ("Failed: " ++ e)]
             | Except.ok _ => []) ++
            [Effect.say "Left voice due to lack of frens :((("] }
    else
      { timer := prev + 1, disconnect := false, effects := [] }
  else
    { timer := 0, disconnect := false, effects := [] }

/-- A run of the periodic watchdog: one tick per channel-membership
snapshot, threading the timer (which starts at 0 when the handler is
registered at join time). Returns the final timer value and the per-tick
disconnect decisions. -/
def runWatchdog (snapshots : List Guild) (channel_id : ChannelId) (bot_id : UserId)
    (timer : Nat) (removeResult : Except String Unit) : Nat × List Bool :=
  match snapshots with
  | [] => (timer, [])
  | g :: gs =>
      let r := timeout_act g channel_id bot_id timer removeResult
      let rest := runWatchdog gs channel_id bot_id r.timer removeResult
      (rest.1, r.disconnect :: rest.2)

/-- The queue state of one active voice session; entries are the URLs
handed to the external queue. -/
structure Session where
  queue : List String
  deriving DecidableEq, Repr

/-- The external session manager, as the handlers observe it: the map
from guild id to the active session, if any (manager.get). -/
abbrev Manager := List (GuildId × Session)

/-- Model of the external manager.remove: the call for the guild is
dropped. Used for the success case of remove. -/
def removeSession (m : Manager) (gid : GuildId) : Manager :=
  m.filter fun p => p.1 != gid

/-- Replace the queue of the session of gid (used after the external
queue is mutated by enqueue, skip or stop). -/
def updateQueue (m : Manager) (gid : GuildId) (q : List String) : Manager :=
  m.map fun p => if p.1 == gid then (p.1, Session.mk q) else p

/-- src/discord.rs lines 388-392. A failed chat send is logged with
println and discarded; a successful send produces nothing. -/
def check_msg (result : Except String Unit) : List Effect :=
  match result with
  | Except.error why => [Effect.log ("Error sending message: " ++ why)]
  | Except.ok _ => []

/-- Rust str::starts_with, as a character-level prefix test: true when
the characters of p form a prefix of the characters of s. -/
def starts_with (s p : String) : Bool :=
  p.data.isPrefixOf s.data

/-- src/discord.rs lines 249-311, the play handler. args is the argument
list the framework parsed from the message; args.single yields the first
argument or fails on an empty list. ytdl is the external source resolver
(Restartable::ytdl). Returns the manager state after the call, the effect
trace, and the CommandResult. -/
def play (args : List String) (guild_id : GuildId) (manager : Manager)
    (ytdl : String → Except String Unit) :
    Manager × List Effect × Except String Unit :=
  match args with
  | [] =>
      (manager, [Effect.say "Must provide a URL to a video or audio"], Except.ok ())
  | url :: _ =>
      if !starts_with url "http" then
        (manager, [Effect.say "Must provide a valid URL"], Except.ok ())
      else
        match List.lookup guild_id manager with
        | some session =>
            match ytdl url with
            | Except.error why =>
                (manager,
                 [Effect.managerGet guild_id, Effect.resolveSource url,
                  Effect.log ("Err starting source " ++ why),
                  Effect.say "Error sourcing ffmpeg"],
                 Except.ok ())
            | Except.ok _ =>
                let q := session.queue ++ [url]
                (updateQueue manager guild_id q,
                 [Effect.managerGet guild_id, Effect.resolveSource url,
                  Effect.enqueueSource url,
                  Effect.say ("Added song to queue: position " ++ toString q.length)],
                 Except.ok ())
        | none =>
            (manager,
             [Effect.managerGet guild_id,
              Effect.say "Not in a voice channel to play in"],
             Except.ok ())

/-- The framework gate in front of the play handler. The attribute
max_args(1) on play (src/discord.rs line 243) makes the framework reject
an invocation with more than one argument before the handler runs;
create_bot configures no dispatch-error hook, so the rejection produces
no reply. The gate itself lives in the external framework; its behaviour
here follows the spec, which states play takes at most one argument. -/
def play_dispatch (args : List String) (guild_id : GuildId) (manager : Manager)
    (ytdl : String → Except String Unit) :
    Manager × List Effect × Except String Unit :=
  if 1 < args.length then (manager, [], Except.ok ())
  else play args guild_id manager ytdl

/-- src/discord.rs lines 317-348, the skip handler. The external
queue.skip advances past the current entry; the reply prints the length
of the queue after that. -/
def skip (guild_id : GuildId) (manager : Manager) :
    Manager × List Effect × Except String Unit :=
  match List.lookup guild_id manager with
  | some session =>
      let q := session.queue.drop 1
      (updateQueue manager guild_id q,
       [Effect.managerGet guild_id,
        Effect.say ("Song skipped: " ++ toString q.length ++ " in queue.")],
       Except.ok ())
  | none =>
      (manager,
       [Effect.managerGet guild_id, Effect.say "Not in a voice channel"],
       Except.ok ())

/-- src/discord.rs lines 353-377, the stop handler. The external
queue.stop clears the queue. -/
def stop (guild_id : GuildId) (manager : Manager) :
    Manager × List Effect × Except String Unit :=
  match List.lookup guild_id manager with
  | some _ =>
      (updateQueue manager guild_id [],
       [Effect.managerGet guild_id, Effect.say "Queue cleared."],
       Except.ok ())
  | none =>
      (manager,
       [Effect.managerGet guild_id, Effect.say "Not in a voice channel"],
       Except.ok ())

/-- src/discord.rs lines 214-239, the leave handler. removeResult is the
outcome of the external manager.remove call: on failure its message is
sent, and the "Left voice" send follows in every case because it sits
outside the error branch. On failure the call state of the external
manager is left as it was. -/
def leave (guild_id : GuildId) (manager : Manager)
    (removeResult : Except String Unit) :
    Manager × List Effect × Except String Unit :=
  if (List.lookup guild_id manager).isSome then
    match removeResult with
    | Except.error e =>
        (manager,
         [Effect.managerGet guild_id, Effect.removeCall guild_id,
          Effect.say ("Failed: " ++ e), Effect.say "Left voice"],
         Except.ok ())
    | Except.ok _ =>
        (removeSession manager guild_id,
         [Effect.managerGet guild_id, Effect.removeCall guild_id,
          Effect.say "Left voice"],
         Except.ok ())
  else
    (manager,
     [Effect.managerGet guild_id, Effect.reply "Not in a voice channel"],
     Except.ok ())

/-- src/discord.rs lines 139-142: the voice channel of the invoking user,
read from the voice_states map of the guild. -/
def author_channel (guild : Guild) (author_id : UserId) : Option ChannelId :=
  (guild.voice_states.find? fun vs => vs.user_id == author_id).bind
    fun vs => vs.channel_id

/-- src/discord.rs lines 201-209, the deafen helper: if the call is
already deafened a line is printed; otherwise deafen(true) is requested
and a failure is logged with eprintln. -/
def deafen (isDeaf : Bool) (deafenResult : Except String Unit) : List Effect :=
  if isDeaf then [Effect.log "Client already deafened"]
  else
    Effect.deafenCall ::
      (match deafenResult with
       | Except.error e => [Effect.elog ("Failed: " ++ e)]
       | Except.ok _ => [])

/-- src/discord.rs lines 135-199, the join handler. joinResult is the
outcome of the external manager.join; on success the joined channel is
announced (mention renders as <#id>) and the track-end notifier and the
periodic timeout handler are registered; on failure a message is sent.
The deafen helper runs in both branches. -/
def join (guild : Guild) (author_id : UserId)
    (joinResult : Except String Unit) (isDeaf : Bool)
    (deafenResult : Except String Unit) :
    List Effect × Except String Unit :=
  match author_channel guild author_id with
  | none => ([Effect.reply "Not in a voice"], Except.ok ())
  | some connect_to =>
      match joinResult with
      | Except.ok _ =>
          (Effect.joinVoice guild.id connect_to ::
             [Effect.say ("Joined <#" ++ toString connect_to ++ ">"),
              Effect.registerTrackEnd, Effect.registerTimeout] ++
             deafen isDeaf deafenResult,
           Except.ok ())
      | Except.error _ =>
          (Effect.joinVoice guild.id connect_to ::
             [Effect.say "Failed to join channel"] ++ deafen isDeaf deafenResult,
           Except.ok ())

/-- src/discord.rs lines 379-386, the ping handler. -/
def ping : List Effect × Except String Unit :=
  ([Effect.say "Pong!"], Except.ok ())

/-- One observable startup step of create_bot. -/
inductive StartupStep where
  | clientCreated (token : String)
  deriving DecidableEq, Repr

/-- src/discord.rs lines 394-416, startup. env is the process
environment. env::var("DISCORD_TOKEN").expect(...) aborts the process
with the given message when the variable is absent, before the framework
or the client is built; when it is present the client is created with
that token (the downstream framework configuration and client start are
collapsed into the clientCreated step). -/
def create_bot (env : String → Option String) :
    Except String (List StartupStep) :=
  match env "DISCORD_TOKEN" with
  | none => Except.error "Environment variable DISCORD_TOKEN not found"
  | some token => Except.ok [StartupStep.clientCreated token]

/-! ## Helper lemmas -/

/-- A tick that sees a non-empty channel resets the timer and requests
nothing. -/
theorem timeout_act_busy {guild : Guild} {channel_id : ChannelId} {bot_id : UserId}
    (timer : Nat) (removeResult : Except String Unit)
    (h : check_alone guild channel_id bot_id = false) :
    timeout_act guild channel_id bot_id timer removeResult =
      { timer := 0, disconnect := false, effects := [] } := by
  simp [timeout_act, h]

/-- On a tick that sees an empty channel, the timer increments and the
disconnect decision is prev >= 5, i.e. timer value >= 6 after the
increment. -/
theorem timeout_act_empty {guild : Guild} {channel_id : ChannelId} {bot_id : UserId}
    (timer : Nat) (removeResult : Except String Unit)
    (h : check_alone guild channel_id bot_id = true) :
    (timeout_act guild channel_id bot_id timer removeResult).timer = timer + 1 ∧
    (timeout_act guild channel_id bot_id timer removeResult).disconnect =
      decide (5 ≤ timer) := by
  by_cases h5 : 5 ≤ timer <;> simp [timeout_act, h, h5]

/-- The predicate inside check_alone, characterised. -/
theorem check_alone_pred_iff (vs : VoiceState) (channel_id : ChannelId)
    (bot_id : UserId) :
    ((match vs.channel_id with
      | some c_id => channel_id == c_id && vs.user_id != bot_id
      | none => false) = true) ↔
      (vs.channel_id = some channel_id ∧ vs.user_id ≠ bot_id) := by
  cases h : vs.channel_id with
  | none => simp
  | some c_id =>
      simp only [Bool.and_eq_true, beq_iff_eq, bne_iff_ne, ne_eq,
        Option.some.injEq]
      constructor
      · rintro ⟨rfl, h2⟩; exact ⟨rfl, h2⟩
      · rintro ⟨h1, h2⟩; exact ⟨h1.symm, h2⟩

/-- check_alone is false exactly when some voice state places a user
other than the bot in the channel. -/
theorem check_alone_false_iff (guild : Guild) (channel_id : ChannelId)
    (bot_id : UserId) :
    check_alone guild channel_id bot_id = false ↔
      ∃ vs ∈ guild.voice_states,
        vs.channel_id = some channel_id ∧ vs.user_id ≠ bot_id := by
  unfold check_alone
  rw [Bool.not_eq_false', List.any_eq_true]
  constructor
  · rintro ⟨vs, hmem, hp⟩
    exact ⟨vs, hmem, (check_alone_pred_iff vs channel_id bot_id).mp hp⟩
  · rintro ⟨vs, hmem, hp⟩
    exact ⟨vs, hmem, (check_alone_pred_iff vs channel_id bot_id).mpr hp⟩

/-- A disconnect decision at position i of a watchdog run that starts at
timer value t needs 5 <= t + i, and every snapshot at distance at most 4
before position i (and at i itself) was empty. -/
theorem watchdog_streak (snapshots : List Guild) (channel_id : ChannelId)
    (bot_id : UserId) (timer : Nat) (removeResult : Except String Unit)
    (i : Nat)
    (h : (runWatchdog snapshots channel_id bot_id timer removeResult).2[i]? =
      some true) :
    5 ≤ timer + i ∧
      ∀ j, j ≤ i → i ≤ j + 4 →
        ∃ g, snapshots[j]? = some g ∧ check_alone g channel_id bot_id = true := by
  induction snapshots generalizing timer i with
  | nil => simp [runWatchdog] at h
  | cons g gs ih =>
      rw [runWatchdog] at h
      cases i with
      | zero =>
          simp only [List.getElem?_cons_zero, Option.some.injEq] at h
          by_cases hca : check_alone g channel_id bot_id
          · have he := timeout_act_empty timer removeResult hca
            rw [he.2] at h
            have h5 : 5 ≤ timer := of_decide_eq_true h
            refine ⟨by omega, ?_⟩
            intro j hj _
            have : j = 0 := Nat.le_zero.mp hj
            subst this
            exact ⟨g, by simp, hca⟩
          · rw [timeout_act_busy timer removeResult
              (Bool.not_eq_true _ ▸ (by simpa using hca))] at h
            simp at h
      | succ i' =>
          simp only [List.getElem?_cons_succ] at h
          have hrec := ih ((timeout_act g channel_id bot_id timer removeResult).timer) i' h
          by_cases hca : check_alone g channel_id bot_id
          · have he := timeout_act_empty timer removeResult hca
            rw [he.1] at hrec
            refine ⟨by omega, ?_⟩
            intro j hj hji
            cases j with
            | zero => exact ⟨g, by simp, hca⟩
            | succ j' =>
                have := hrec.2 j' (by omega) (by omega)
                obtain ⟨g', hg', hcg'⟩ := this
                exact ⟨g', by simpa using hg', hcg'⟩
          · have hb : check_alone g channel_id bot_id = false := by
              simpa using hca
            rw [timeout_act_busy timer removeResult hb] at hrec
            have h5 : 5 ≤ i' := by simpa using hrec.1
            refine ⟨by omega, ?_⟩
            intro j hj hji
            cases j with
            | zero =>
                exfalso
                omega
            | succ j' =>
                have := hrec.2 j' (by omega) (by omega)
                obtain ⟨g', hg', hcg'⟩ := this
                exact ⟨g', by simpa using hg', hcg'⟩

/-! ## Concrete fixtures -/

/-- A guild whose channel 10 is empty (no voice states at all). -/
def gEmpty : Guild := { id := 7, voice_states := [] }

/-- A guild with a human user 2 in channel 10. -/
def gBusy : Guild :=
  { id := 7
    voice_states := [{ user_id := 2, channel_id := some 10, isBot := false }] }

/-- A guild with a bot account, user 2, in channel 10. -/
def gBot : Guild :=
  { id := 7
    voice_states := [{ user_id := 2, channel_id := some 10, isBot := true }] }

/-! ## Claims -/

/-- C1, counterexample. Five consecutive empty watchdog ticks starting
from counter 0 request no disconnect at all (the per-tick decisions are
all false), even though the counter reaches 5 after the fifth increment:
the code tests the pre-increment value against 5, so the claimed
"disconnect iff counter >= 5 after incrementing, exactly once on the 5th
tick" fails. -/
theorem c1_counterexample :
    (runWatchdog (List.replicate 5 gEmpty) 10 1 0 (Except.ok ())).2 =
      [false, false, false, false, false] ∧
    (runWatchdog (List.replicate 5 gEmpty) 10 1 0 (Except.ok ())).1 = 5 := by
  decide

/-- C1, amended. On an empty tick the counter increments, and the
disconnect (manager remove plus farewell notification) is requested iff
the counter value is >= 6 after incrementing (pre-increment value >= 5);
consequently a run of 6 consecutive empty ticks from counter 0, with no
intervening non-empty tick, requests the disconnect exactly once, on the
6th tick. -/
theorem c1_amended :
    (∀ (g : Guild) (c : ChannelId) (b : UserId) (t : Nat)
        (rr : Except String Unit),
        check_alone g c b = true →
        (timeout_act g c b t rr).timer = t + 1 ∧
        ((timeout_act g c b t rr).disconnect = true ↔ 6 ≤ t + 1)) ∧
    (∀ (g1 g2 g3 g4 g5 g6 : Guild) (c : ChannelId) (b : UserId)
        (rr : Except String Unit),
        check_alone g1 c b = true → check_alone g2 c b = true →
        check_alone g3 c b = true → check_alone g4 c b = true →
        check_alone g5 c b = true → check_alone g6 c b = true →
        (runWatchdog [g1, g2, g3, g4, g5, g6] c b 0 rr).2 =
          [false, false, false, false, false, true]) := by
  constructor
  · intro g c b t rr h
    have he := timeout_act_empty t rr h
    refine ⟨he.1, ?_⟩
    rw [he.2, decide_eq_true_eq]
    omega
  · intro g1 g2 g3 g4 g5 g6 c b rr h1 h2 h3 h4 h5 h6
    simp [runWatchdog, timeout_act, h1, h2, h3, h4, h5, h6]

/-- C1, amended, witness at concrete inputs: tick from counter 5 on the
concrete empty guild, and the 6-tick run of empty snapshots. -/
theorem c1_amended_witness :
    ((timeout_act gEmpty 10 1 5 (Except.ok ())).timer = 5 + 1 ∧
      ((timeout_act gEmpty 10 1 5 (Except.ok ())).disconnect = true ↔ 6 ≤ 5 + 1)) ∧
    (runWatchdog [gEmpty, gEmpty, gEmpty, gEmpty, gEmpty, gEmpty] 10 1 0
        (Except.ok ())).2 = [false, false, false, false, false, true] :=
  ⟨c1_amended.1 gEmpty 10 1 5 (Except.ok ()) (by decide),
   c1_amended.2 gEmpty gEmpty gEmpty gEmpty gEmpty gEmpty 10 1 (Except.ok ())
     (by decide) (by decide) (by decide) (by decide) (by decide) (by decide)⟩

/-- C2. First part: a tick whose snapshot contains a non-bot member in
the channel (with the well-formedness fact that any voice state carrying
the bot id belongs to a bot account) resets the idle counter to 0,
whatever its prior value, and requests nothing — in particular a
non-empty tick at counter value 4 prevents the disconnect. Second part:
a disconnect decision at position i of a run started at counter 0 forces
5 <= i and forces the 5 consecutive snapshots at positions i-4..i to be
empty, so a disconnect needs 5 consecutive idle observations, never 5
cumulative ones, and a non-empty tick makes a fresh run of empty ticks
necessary. -/
theorem c2_consecutive_reset :
    (∀ (g : Guild) (c : ChannelId) (b : UserId) (t : Nat)
        (rr : Except String Unit),
        (∀ vs ∈ g.voice_states, vs.user_id = b → vs.isBot = true) →
        (∃ vs ∈ g.voice_states, vs.channel_id = some c ∧ vs.isBot = false) →
        timeout_act g c b t rr =
          { timer := 0, disconnect := false, effects := [] }) ∧
    (∀ (snapshots : List Guild) (c : ChannelId) (b : UserId)
        (rr : Except String Unit) (i : Nat),
        (runWatchdog snapshots c b 0 rr).2[i]? = some true →
        5 ≤ i ∧ ∀ j, j ≤ i → i ≤ j + 4 →
          ∃ g, snapshots[j]? = some g ∧ check_alone g c b = true) := by
  constructor
  · intro g c b t rr hwf hex
    obtain ⟨vs, hmem, hch, hbot⟩ := hex
    apply timeout_act_busy
    rw [check_alone_false_iff]
    refine ⟨vs, hmem, hch, fun heq => ?_⟩
    have := hwf vs hmem heq
    rw [this] at hbot
    cases hbot
  · intro snapshots c b rr i h
    have hs := watchdog_streak snapshots c b 0 rr i h
    have h5 := hs.1
    exact ⟨by omega, hs.2⟩

/-- C2, witness: the non-empty tick at counter value 4 on the concrete
busy guild, and the disconnect decision on the 6th tick (index 5) of a
run of empty snapshots. -/
theorem c2_consecutive_reset_witness :
    timeout_act gBusy 10 1 4 (Except.ok ()) =
      { timer := 0, disconnect := false, effects := [] } ∧
    (5 ≤ 5 ∧ ∀ j, j ≤ 5 → 5 ≤ j + 4 →
      ∃ g, (List.replicate 6 gEmpty)[j]? = some g ∧ check_alone g 10 1 = true) :=
  ⟨c2_consecutive_reset.1 gBusy 10 1 4 (Except.ok ()) (by decide) (by decide),
   c2_consecutive_reset.2 (List.replicate 6 gEmpty) 10 1 (Except.ok ()) 5
     (by decide)⟩

/-- C4. The emptiness decision of the watchdog returns "empty" (the bot
is alone) exactly when no voice state of the guild places a member other
than the bot in the inspected channel; a member whose voice state has no
channel never counts as present. -/
theorem c4_empty_decision :
    ∀ (g : Guild) (c : ChannelId) (b : UserId),
      check_alone g c b = true ↔
        ¬ ∃ vs ∈ g.voice_states, vs.channel_id = some c ∧ vs.user_id ≠ b := by
  intro g c b
  rw [← check_alone_false_iff g c b]
  constructor
  · intro h hf
    rw [h] at hf
    cases hf
  · intro h
    cases hca : check_alone g c b
    · exact absurd hca h
    · rfl

/-- C9. First part: the emptiness decision never consults the bot flag —
flipping the isBot flag of every voice state in any way leaves
check_alone unchanged; presence is decided solely by comparing user ids
against the bot id. Second part: a voice state that places any user
other than the bot — here one whose isBot flag is true, i.e. another bot
account — in the channel counts as presence, so the tick resets the idle
counter to 0. -/
theorem c9_presence_by_id :
    (∀ (gid : GuildId) (states : List VoiceState) (f : VoiceState → Bool)
        (c : ChannelId) (b : UserId),
        check_alone
          { id := gid
            voice_states := states.map fun vs => { vs with isBot := f vs } }
          c b =
        check_alone { id := gid, voice_states := states } c b) ∧
    (∀ (g : Guild) (c : ChannelId) (b : UserId) (t : Nat)
        (rr : Except String Unit) (vs : VoiceState),
        vs ∈ g.voice_states → vs.channel_id = some c → vs.user_id ≠ b →
        vs.isBot = true →
        timeout_act g c b t rr =
          { timer := 0, disconnect := false, effects := [] }) := by
  constructor
  · intro gid states f c b
    unfold check_alone
    simp only [List.any_map]
    congr 1
  · intro g c b t rr vs hmem hch hne _
    apply timeout_act_busy
    rw [check_alone_false_iff]
    exact ⟨vs, hmem, hch, hne⟩

/-- C9, witness: a tick on the concrete guild holding only another bot
account in the channel resets the counter from 3 to 0. -/
theorem c9_presence_by_id_witness :
    timeout_act gBot 10 1 3 (Except.ok ()) =
      { timer := 0, disconnect := false, effects := [] } :=
  c9_presence_by_id.2 gBot 10 1 3 (Except.ok ())
    { user_id := 2, channel_id := some 10, isBot := true }
    (by decide) (by decide) (by decide) (by decide)

/-- An empty session queue. -/
def sEmpty : Session := { queue := [] }

/-- A manager with one active session, for guild 7. -/
def m1 : Manager := [(7, sEmpty)]

/-- A source resolver that always succeeds. -/
def ytdlOk : String → Except String Unit := fun _ => Except.ok ()

/-- C3, counterexample. A play invocation with two arguments produces no
effects at all: the max_args(1) framework gate rejects it before the
handler runs and no dispatch-error hook is configured, so the claimed
"Must provide a URL" rejection reply never happens (and even the bare
handler would accept the first argument rather than reject). -/
theorem c3_counterexample :
    (play_dispatch ["http://a", "b"] 7 m1 ytdlOk).2.1 = [] ∧
    Effect.say "Must provide a URL to a video or audio" ∉
      (play_dispatch ["http://a", "b"] 7 m1 ytdlOk).2.1 := by
  decide

/-- C3, amended. A play invocation with zero arguments yields the reply
"Must provide a URL to a video or audio" without invoking the resolver;
a single argument not starting with "http" never reaches source
resolution and always yields the reply "Must provide a valid URL"; an
invocation with more than one argument is rejected by the framework
max_args gate before the handler runs, producing no reply and invoking
neither the session manager nor the resolver. -/
theorem c3_amended :
    (∀ (gid : GuildId) (m : Manager) (y : String → Except String Unit),
        play_dispatch [] gid m y =
          (m, [Effect.say "Must provide a URL to a video or audio"],
           Except.ok ())) ∧
    (∀ (url : String) (gid : GuildId) (m : Manager)
        (y : String → Except String Unit),
        starts_with url "http" = false →
        play_dispatch [url] gid m y =
          (m, [Effect.say "Must provide a valid URL"], Except.ok ())) ∧
    (∀ (args : List String) (gid : GuildId) (m : Manager)
        (y : String → Except String Unit),
        1 < args.length →
        play_dispatch args gid m y = (m, [], Except.ok ())) := by
  refine ⟨?_, ?_, ?_⟩
  · intro gid m y
    simp [play_dispatch, play]
  · intro url gid m y h
    simp [play_dispatch, play, h]
  · intro args gid m y h
    simp [play_dispatch, h]

/-- C3, amended, witness at concrete invocations. -/
theorem c3_amended_witness :
    play_dispatch [] 7 m1 ytdlOk =
      (m1, [Effect.say "Must provide a URL to a video or audio"],
       Except.ok ()) ∧
    play_dispatch ["ftp://x"] 7 m1 ytdlOk =
      (m1, [Effect.say "Must provide a valid URL"], Except.ok ()) ∧
    play_dispatch ["http://a", "b"] 7 m1 ytdlOk = (m1, [], Except.ok ()) :=
  ⟨c3_amended.1 7 m1 ytdlOk,
   c3_amended.2.1 "ftp://x" 7 m1 ytdlOk (by decide),
   c3_amended.2.2 ["http://a", "b"] 7 m1 ytdlOk (by decide)⟩

/-- C5. When the session manager has no session for the guild, skip and
stop reply "Not in a voice channel" and leave the manager state — hence
the queue of every session — unchanged, and return normally. -/
theorem c5_skip_stop_no_session :
    ∀ (gid : GuildId) (m : Manager),
      List.lookup gid m = none →
      skip gid m =
        (m, [Effect.managerGet gid, Effect.say "Not in a voice channel"],
         Except.ok ()) ∧
      stop gid m =
        (m, [Effect.managerGet gid, Effect.say "Not in a voice channel"],
         Except.ok ()) := by
  intro gid m h
  constructor
  · simp [skip, h]
  · simp [stop, h]

/-- C5, witness: guild 9 has no session in the concrete manager. -/
theorem c5_skip_stop_no_session_witness :
    skip 9 m1 =
      (m1, [Effect.managerGet 9, Effect.say "Not in a voice channel"],
       Except.ok ()) ∧
    stop 9 m1 =
      (m1, [Effect.managerGet 9, Effect.say "Not in a voice channel"],
       Except.ok ()) :=
  c5_skip_stop_no_session 9 m1 (by decide)

/-- C6, counterexample. With an active session and a failing
manager.remove, leave sends both the manager error message and
"Left voice": the "Left voice" send sits outside the error branch, so
the reply on failure is not the error message alone, contradicting the
claimed success/failure split of replies. -/
theorem c6_counterexample :
    (leave 7 m1 (Except.error "boom")).2.1 =
      [Effect.managerGet 7, Effect.removeCall 7,
       Effect.say "Failed: boom", Effect.say "Left voice"] ∧
    Effect.say "Left voice" ∈ (leave 7 m1 (Except.error "boom")).2.1 := by
  decide

/-- C6, amended. With no active session, leave replies "Not in a voice
channel" and changes nothing. With an active session, termination is
requested and "Left voice" is replied in every case; on a remove failure
the manager error message ("Failed: e") is replied additionally, before
"Left voice". -/
theorem c6_amended :
    ∀ (gid : GuildId) (m : Manager) (rr : Except String Unit),
      (List.lookup gid m = none →
        leave gid m rr =
          (m, [Effect.managerGet gid, Effect.reply "Not in a voice channel"],
           Except.ok ())) ∧
      ((List.lookup gid m).isSome = true →
        (leave gid m rr).2.1 =
          [Effect.managerGet gid, Effect.removeCall gid] ++
            (match rr with
             | Except.error e => [Effect.say ("Failed: " ++ e)]
             | Except.ok _ => []) ++
            [Effect.say "Left voice"]) := by
  intro gid m rr
  constructor
  · intro h
    simp [leave, h]
  · intro h
    cases rr <;> simp [leave, h]

/-- C6, amended, witness: the no-session reply for guild 9 and the
failing-remove reply sequence for guild 7. -/
theorem c6_amended_witness :
    leave 9 m1 (Except.ok ()) =
      (m1, [Effect.managerGet 9, Effect.reply "Not in a voice channel"],
       Except.ok ()) ∧
    (leave 7 m1 (Except.error "boom")).2.1 =
      [Effect.managerGet 7, Effect.removeCall 7] ++
        [Effect.say ("Failed: " ++ "boom")] ++ [Effect.say "Left voice"] :=
  ⟨(c6_amended 9 m1 (Except.ok ())).1 (by decide),
   (c6_amended 7 m1 (Except.error "boom")).2 (by decide)⟩

/-- C7. For every invocation of every handler and every outcome of the
fallible collaborator calls the handlers make (manager.join, source
resolution, manager.remove, chat sends), the handler returns the normal
CommandResult Ok: a failed join is converted to the chat message "Failed
to join channel", a failed source resolution to a console line and the
chat message "Error sourcing ffmpeg", and a failed outbound send is
converted by check_msg to a console log line only. -/
theorem c7_handler_boundary :
    (∀ (g : Guild) (a : UserId) (jr : Except String Unit) (d : Bool)
        (dr : Except String Unit), (join g a jr d dr).2 = Except.ok ()) ∧
    (∀ (g : Guild) (a : UserId) (c : ChannelId) (e : String) (d : Bool)
        (dr : Except String Unit),
        author_channel g a = some c →
        (join g a (Except.error e) d dr).1 =
          Effect.joinVoice g.id c ::
            [Effect.say "Failed to join channel"] ++ deafen d dr) ∧
    (∀ (args : List String) (gid : GuildId) (m : Manager)
        (y : String → Except String Unit),
        (play args gid m y).2.2 = Except.ok ()) ∧
    (∀ (url : String) (rest : List String) (gid : GuildId) (s : Session)
        (m2 : Manager) (why : String),
        starts_with url "http" = true →
        play (url :: rest) gid ((gid, s) :: m2)
            (fun _ => Except.error why) =
          ((gid, s) :: m2,
           [Effect.managerGet gid, Effect.resolveSource url,
            Effect.log ("Err starting source " ++ why),
            Effect.say "Error sourcing ffmpeg"],
           Except.ok ())) ∧
    (∀ (gid : GuildId) (m : Manager) (rr : Except String Unit),
        (leave gid m rr).2.2 = Except.ok ()) ∧
    (∀ (gid : GuildId) (m : Manager), (skip gid m).2.2 = Except.ok ()) ∧
    (∀ (gid : GuildId) (m : Manager), (stop gid m).2.2 = Except.ok ()) ∧
    (ping.2 = Except.ok ()) ∧
    (∀ (why : String),
        check_msg (Except.error why) =
          [Effect.log ("Error sending message: " ++ why)]) ∧
    (∀ (x : Unit), check_msg (Except.ok x) = []) := by
  refine ⟨?_, ?_, ?_, ?_, ?_, ?_, ?_, rfl, fun why => rfl, fun x => rfl⟩
  · intro g a jr d dr
    cases h : author_channel g a <;> cases jr <;> simp [join, h]
  · intro g a c e d dr h
    simp [join, h]
  · intro args gid m y
    cases args with
    | nil => simp [play]
    | cons url rest =>
        cases hu : starts_with url "http" with
        | false => simp [play, hu]
        | true =>
            cases hl : List.lookup gid m with
            | none => simp [play, hu, hl]
            | some s =>
                cases hy : y url with
                | error why => simp [play, hu, hl, hy]
                | ok u => simp [play, hu, hl, hy]
  · intro url rest gid s m2 why h
    simp [play, h, List.lookup]
  · intro gid m rr
    cases h : (List.lookup gid m).isSome <;> cases rr <;> simp [leave, h]
  · intro gid m
    cases h : List.lookup gid m <;> simp [skip, h]
  · intro gid m
    cases h : List.lookup gid m <;> simp [stop, h]

/-- C7, witness: a failed join on the concrete guild and a failed source
resolution on the concrete session. -/
theorem c7_handler_boundary_witness :
    (join gBusy 2 (Except.error "joinfail") false (Except.ok ())).1 =
      Effect.joinVoice gBusy.id 10 ::
        [Effect.say "Failed to join channel"] ++
          deafen false (Except.ok ()) ∧
    play ["http://a"] 7 ((7, sEmpty) :: [])
        (fun _ => Except.error "nosrc") =
      ((7, sEmpty) :: [],
       [Effect.managerGet 7, Effect.resolveSource "http://a",
        Effect.log ("Err starting source " ++ "nosrc"),
        Effect.say "Error sourcing ffmpeg"],
       Except.ok ()) :=
  ⟨c7_handler_boundary.2.1 gBusy 2 10 "joinfail" false (Except.ok ())
     (by decide),
   c7_handler_boundary.2.2.2.1 "http://a" [] 7 sEmpty [] "nosrc" (by decide)⟩

/-- C8. In play, URL validation runs before the session lookup: for any
first argument not starting with "http" — whatever the manager state, in
particular with no active session — the only effect is the reply "Must
provide a valid URL"; the session manager is never consulted and the
resolver never invoked, and the reply is never "Not in a voice channel
to play in". -/
theorem c8_validation_first :
    ∀ (url : String) (rest : List String) (gid : GuildId) (m : Manager)
      (y : String → Except String Unit),
      starts_with url "http" = false →
      play (url :: rest) gid m y =
        (m, [Effect.say "Must provide a valid URL"], Except.ok ()) ∧
      Effect.managerGet gid ∉ (play (url :: rest) gid m y).2.1 ∧
      Effect.resolveSource url ∉ (play (url :: rest) gid m y).2.1 := by
  intro url rest gid m y h
  have hp : play (url :: rest) gid m y =
      (m, [Effect.say "Must provide a valid URL"], Except.ok ()) := by
    simp [play, h]
  refine ⟨hp, ?_, ?_⟩ <;> rw [hp] <;> simp

/-- C8, witness: a non-http argument with an empty manager. -/
theorem c8_validation_first_witness :
    play ["ftp://x"] 7 [] ytdlOk =
      ([], [Effect.say "Must provide a valid URL"], Except.ok ()) ∧
    Effect.managerGet 7 ∉ (play ["ftp://x"] 7 [] ytdlOk).2.1 ∧
    Effect.resolveSource "ftp://x" ∉ (play ["ftp://x"] 7 [] ytdlOk).2.1 :=
  c8_validation_first "ftp://x" [] 7 [] ytdlOk (by decide)

/-- C10. If the environment lacks DISCORD_TOKEN, startup aborts with the
expect message and no client is ever created; if the variable is
present, startup proceeds and the client is created with exactly that
token. -/
theorem c10_token_fail_fast :
    ∀ (env : String → Option String),
      (env "DISCORD_TOKEN" = none →
        create_bot env =
          Except.error "Environment variable DISCORD_TOKEN not found") ∧
      (∀ t, env "DISCORD_TOKEN" = some t →
        create_bot env = Except.ok [StartupStep.clientCreated t]) := by
  intro env
  constructor
  · intro h
    simp [create_bot, h]
  · intro t h
    simp [create_bot, h]

/-- C10, witness: the empty environment aborts; an environment holding
the token starts the client with it. -/
theorem c10_token_fail_fast_witness :
    create_bot (fun _ => none) =
      Except.error "Environment variable DISCORD_TOKEN not found" ∧
    create_bot (fun v => if v = "DISCORD_TOKEN" then some "tok" else none) =
      Except.ok [StartupStep.clientCreated "tok"] :=
  ⟨(c10_token_fail_fast (fun _ => none)).1 rfl,
   (c10_token_fail_fast
       (fun v => if v = "DISCORD_TOKEN" then some "tok" else none)).2 "tok"
     (by simp)⟩

end Sunny
